import Mathlib

/-!
Shallow embedding of `pychirp.py`, a CLI front end to a remote
operations client.  Python values that flow through the interactive-mode
argument machinery are embedded as `Value`; the argument-building loop of
the decorator `_interactive`, the token consumption of argparse, the
falsy-value filter, the `put` mode augmentation, the docstring help
extraction, the structured output renderer `_print_out`, the `getdir`
timestamp loop and the `__main__` dispatch are each translated from the
source.
-/

namespace Pychirp

set_option maxRecDepth 8192

/-- Character membership in a string, Python `c in s` (character-list
based so that closed instances reduce inside proofs). -/
def strContains (s : String) (c : Char) : Bool := s.data.contains c

/-- Whether a string starts with the given character. -/
def startsWithChar (s : String) (c : Char) : Bool :=
  match s.data with
  | c0 :: _ => c0 == c
  | [] => false

/-- Python values manipulated by the interactive wrapper: `None`, booleans,
strings, integers, tuples and lists (the latter produced by argparse for
multi-token options). -/
inductive Value where
  | none
  | bool (b : Bool)
  | str (s : String)
  | int (n : Int)
  | tuple (vs : List Value)
  | list (vs : List Value)

/-- Python truthiness for the values above: `None` and `False` are falsy,
a string is truthy iff nonempty, a number iff nonzero, a tuple or list iff
nonempty. -/
def truthy : Value → Bool
  | .none => false
  | .bool b => b
  | .str s => s != ""
  | .int n => n != 0
  | .tuple vs => !vs.isEmpty
  | .list vs => !vs.isEmpty

/-- The falsy filter in `_interactive.decorator.wrapper` (line 66):
`dict(filter(lambda item: item[1] or item[0] not in defaults,
parsed_args.items()))` — an entry is kept iff its value is truthy or its
key carries no declared default. -/
def filterParsed (defaults : List (String × Value)) (parsed : List (String × Value)) :
    List (String × Value) :=
  parsed.filter fun item => truthy item.2 || (defaults.lookup item.1).isNone

/-- The value each parameter receives in `func(**parsed_args)`: the entry
surviving the falsy filter when present, otherwise the declared default. -/
def resolveArg (defaults parsed : List (String × Value)) (arg : String) : Option Value :=
  ((filterParsed defaults parsed).lookup arg).orElse fun _ => defaults.lookup arg

/-- The mode augmentation in `put` (lines 135-141): when `mode` is truthy,
the first of the characters `a`, `c`, `t` found in it causes `"w"` to be
appended once (the loop breaks after the first hit). -/
def putMode (mode : String) : String :=
  if mode = "" then mode
  else if strContains mode 'a' then mode ++ "w"
  else if strContains mode 'c' then mode ++ "w"
  else if strContains mode 't' then mode ++ "w"
  else mode

/-- Token counts an argparse option may consume: the implicit single token,
an exact count from `nargs = n`, or zero-or-one from `nargs = "?"`. -/
inductive NargsSpec where
  | one
  | count (n : Nat)
  | optionalOne
deriving DecidableEq

/-- The subset of `ArgumentParser.add_argument` keyword settings the module
passes through the `custom` dictionaries of the decorator (`nargs`; `metavar`
has no parsing effect and is omitted). -/
structure CustomOpt where
  nargs : Option NargsSpec := Option.none
deriving DecidableEq

/-- argparse actions used by the wrapper: plain storage, and the
`store_true` / `store_false` flag actions chosen for boolean defaults. -/
inductive ArgAction where
  | store
  | storeTrue
  | storeFalse
deriving DecidableEq

/-- One argument registered on the parser: its bare name, whether the
wrapper put a `-` before it (it does so exactly when the parameter has a
default), its action and its token arity. -/
structure ArgSpec where
  name : String
  isOpt : Bool
  action : ArgAction
  nargs : NargsSpec
deriving DecidableEq

/-- The argument-building loop of `_interactive.decorator.wrapper`
(lines 46-62): `argname = arg`; if the parameter has a default the name is
dashed and a boolean default (`is False` / `is True`) selects
`store_true` / `store_false`; finally `argoptions.update(custom[arg])`
lets a custom entry override `nargs`. -/
def buildArg (custom : List (String × CustomOpt)) (defaults : List (String × Value))
    (arg : String) : ArgSpec :=
  let dflt := defaults.lookup arg
  let action : ArgAction :=
    match dflt with
    | some (.bool false) => .storeTrue
    | some (.bool true) => .storeFalse
    | _ => .store
  let nargs : NargsSpec :=
    match custom.lookup arg with
    | some c => match c.nargs with | some n => n | Option.none => .one
    | Option.none => .one
  { name := arg, isOpt := dflt.isSome, action := action, nargs := nargs }

/-- Number of command-line tokens an option consumes after its own flag
token (`optionalOne` consumes at most one). -/
def optionArity (s : ArgSpec) : Nat :=
  match s.action with
  | .storeTrue => 0
  | .storeFalse => 0
  | .store => match s.nargs with | .one => 1 | .count n => n | .optionalOne => 1

/-- Replace the binding of `k` if present, else append it — the effect of
setting an attribute on the argparse namespace. -/
def assocSet (k : String) (v : Value) : List (String × Value) → List (String × Value)
  | [] => [(k, v)]
  | (k', v') :: rest => if k' == k then (k, v) :: rest else (k', v') :: assocSet k v rest

/-- Namespace defaults argparse installs before parsing: every dashed
option starts at `None`, except flags which start at the unnegated
boolean. -/
def initNamespace (specs : List ArgSpec) : List (String × Value) :=
  specs.filterMap fun s =>
    if s.isOpt then
      some (s.name, match s.action with
        | .storeTrue => Value.bool false
        | .storeFalse => Value.bool true
        | .store => Value.none)
    else Option.none

/-- A token is treated as an option flag when it starts with `-` and has at
least one further character. -/
def isOptToken (t : String) : Bool := startsWithChar t '-' && t.data.length > 1

/-- Token consumption of argparse for the flat grammars this module builds:
positionals are filled left to right with non-dashed tokens, a dashed token
must name a registered option and consumes its arity, anything else is a
usage error (`none`, which argparse turns into a non-zero exit). -/
def parseLoop (specs : List ArgSpec) :
    Nat → List String → List ArgSpec → List (String × Value) → Option (List (String × Value))
  | 0, _, _, _ => Option.none
  | _ + 1, [], posQueue, acc =>
    if posQueue.all fun s => s.nargs == NargsSpec.optionalOne then
      some (posQueue.foldl (fun a s => assocSet s.name Value.none a) acc)
    else Option.none
  | fuel + 1, t :: rest, posQueue, acc =>
    if isOptToken t then
      match specs.find? fun s => s.isOpt && ("-" ++ s.name == t) with
      | Option.none => Option.none
      | some s =>
        match s.action with
        | .storeTrue => parseLoop specs fuel rest posQueue (assocSet s.name (Value.bool true) acc)
        | .storeFalse => parseLoop specs fuel rest posQueue (assocSet s.name (Value.bool false) acc)
        | .store =>
          match s.nargs with
          | .one =>
            match rest with
            | [] => Option.none
            | v :: rest2 => parseLoop specs fuel rest2 posQueue (assocSet s.name (Value.str v) acc)
          | .count n =>
            if n ≤ rest.length then
              parseLoop specs fuel (rest.drop n)
                posQueue (assocSet s.name (Value.list ((rest.take n).map Value.str)) acc)
            else Option.none
          | .optionalOne =>
            match rest with
            | [] => parseLoop specs fuel [] posQueue (assocSet s.name Value.none acc)
            | v :: rest2 => parseLoop specs fuel rest2 posQueue (assocSet s.name (Value.str v) acc)
      else
        match posQueue with
        | [] => Option.none
        | p :: ps => parseLoop specs fuel rest ps (assocSet p.name (Value.str t) acc)

/-- Full parse: build the positional queue and the option defaults, then
run the loop over the command tokens (`sys.argv[2:]`); the fuel exceeds
the token count, and every loop step consumes a token, so the fuel never
runs out. -/
def parseTokens (specs : List ArgSpec) (tokens : List String) :
    Option (List (String × Value)) :=
  parseLoop specs (tokens.length + 1) tokens (specs.filter fun s => !s.isOpt)
    (initNamespace specs)

/-- Declared signature of one command function, as the wrapper sees it:
parameter order from `getargspec`, the trailing defaults, and the `custom`
dictionary given to the decorator. -/
structure CommandSig where
  name : String
  params : List String
  defaults : List (String × Value)
  custom : List (String × CustomOpt)

/-- The interactive path of the wrapper: build one parser argument per
declared parameter, parse the tokens, then apply the falsy filter. -/
def interactiveRun (sig : CommandSig) (tokens : List String) :
    Option (List (String × Value)) :=
  (parseTokens (sig.params.map (buildArg sig.custom sig.defaults)) tokens).map
    (filterParsed sig.defaults)

/-- The value the underlying function receives for `arg` after
`func(**parsed_args)`: the surviving parsed entry, else the declared
default. `none` at the outer level means the parse itself failed. -/
def received (sig : CommandSig) (tokens : List String) (arg : String) :
    Option (Option Value) :=
  (interactiveRun sig tokens).map fun kept =>
    (kept.lookup arg).orElse fun _ => sig.defaults.lookup arg

end Pychirp

namespace Pychirp

/-- The registered commands (module-level functions not starting with `_`),
each with its declared parameters, defaults and decorator customization,
read off lines 100-321 of the source. -/
def commands : List CommandSig :=
  [ ⟨"fetch", ["remote_file", "local_file"], [], []⟩,
    ⟨"put", ["remote_file", "local_file", "mode", "perm"],
      [("mode", .str "wct"), ("perm", .none)], []⟩,
    ⟨"remove", ["remote_file"], [], []⟩,
    ⟨"get_job_attr", ["job_attribute"], [], []⟩,
    ⟨"set_job_attr", ["job_attribute", "attribute_value"], [], []⟩,
    ⟨"get_job_attr_delayed", ["job_attribute"], [], []⟩,
    ⟨"set_job_attr_delayed", ["job_attribute", "attribute_value"], [], []⟩,
    ⟨"ulog", ["text"], [], []⟩,
    ⟨"read", ["remote_file", "length", "offset", "stride"],
      [("offset", .none), ("stride", .tuple [.none, .none])],
      [("stride", ⟨some (.count 2)⟩)]⟩,
    ⟨"write", ["remote_file", "local_file", "length", "offset", "stride"],
      [("offset", .none), ("stride", .tuple [.none, .none])],
      [("length", ⟨some .optionalOne⟩), ("stride", ⟨some (.count 2)⟩)]⟩,
    ⟨"rmdir", ["remotepath", "r"], [("r", .bool false)], []⟩,
    ⟨"getdir", ["remotepath", "l"], [("l", .bool false)], []⟩,
    ⟨"whoami", [], [], []⟩,
    ⟨"whoareyou", ["remotepath"], [], []⟩ ]

/-- Names of the registered commands. -/
def registeredCommands : List String := commands.map (·.name)

/-- All (command, parameter, default) triples whose default is a boolean. -/
def boolDefaultParams : List (String × String × Bool) :=
  commands.flatMap fun c =>
    c.defaults.filterMap fun p =>
      match p.2 with
      | .bool b => some (c.name, p.1, b)
      | _ => Option.none

/-- The declared signature of the `read` command. -/
def readSig : CommandSig := ⟨"read", ["remote_file", "length", "offset", "stride"],
  [("offset", .none), ("stride", .tuple [.none, .none])], [("stride", ⟨some (.count 2)⟩)]⟩

/-- The signature of `read` as it would be were the decorator given its default
`custom={}` — the shape-derived binding with no per-parameter declaration. -/
def readSigNoCustom : CommandSig := { readSig with custom := [] }

/-- The declared signature of the `write` command. -/
def writeSig : CommandSig :=
  ⟨"write", ["remote_file", "local_file", "length", "offset", "stride"],
    [("offset", .none), ("stride", .tuple [.none, .none])],
    [("length", ⟨some .optionalOne⟩), ("stride", ⟨some (.count 2)⟩)]⟩

/-- The signature of `write` as it would be were the decorator given its
default `custom={}`. -/
def writeSigNoCustom : CommandSig := { writeSig with custom := [] }

/-- All (command, parameter, tuple length) triples whose declared default
is a tuple. -/
def tupleDefaultParams : List (String × String × Nat) :=
  commands.flatMap fun c =>
    c.defaults.filterMap fun p =>
      match p.2 with
      | .tuple vs => some (c.name, p.1, vs.length)
      | _ => Option.none

/-- The declared signature of the `rmdir` command. -/
def rmdirSig : CommandSig := ⟨"rmdir", ["remotepath", "r"], [("r", .bool false)], []⟩

/-- The declared signature of the `getdir` command. -/
def getdirSig : CommandSig := ⟨"getdir", ["remotepath", "l"], [("l", .bool false)], []⟩

/-- The module-level names visible to `dir()` at the dispatch point
(line 365), paired with whether the bound object is callable: the imports
(`sys`, `argparse`, `re`, `htchirp` are modules, `getargspec` and
`datetime` are callables), the `interactive` flag, the two private
helpers, the fourteen command functions, and the `__main__`-block
bindings `description`, `usage`, `epilog`, `parser`, `args`. -/
def moduleNamespace : List (String × Bool) :=
  [ ("sys", false), ("argparse", false), ("re", false), ("htchirp", false),
    ("getargspec", true), ("datetime", true), ("interactive", false),
    ("_interactive", true), ("_print_out", true),
    ("fetch", true), ("put", true), ("remove", true),
    ("get_job_attr", true), ("set_job_attr", true),
    ("get_job_attr_delayed", true), ("set_job_attr_delayed", true),
    ("ulog", true), ("read", true), ("write", true),
    ("rmdir", true), ("getdir", true), ("whoami", true), ("whoareyou", true),
    ("description", false), ("usage", false), ("epilog", false),
    ("parser", false), ("args", false) ]

/-- The dispatch guard of lines 365-367: `args.command in dir() and not
args.command.startswith("_") and callable(eval(args.command))`. -/
def dirTest (cmd : String) : Bool :=
  (moduleNamespace.any fun e => e.1 == cmd && e.2) && !(startsWithChar cmd '_')

/-- What `__main__` does with the first token: either evaluate and call the
named object, or print a message to stdout and fall off the end of the
script (exit status 0). -/
inductive DispatchAction where
  | invoke (name : String)
  | printExit (msg : String) (code : Nat)
deriving DecidableEq

/-- The dispatch of lines 365-373. -/
def dispatch (cmd : String) : DispatchAction :=
  if dirTest cmd then .invoke cmd
  else .printExit "error: command not implemented" 0

/-- The names the dispatch guard lets through: callable, not
members of the module namespace that do not start with an underscore. -/
def invokableNames : List String :=
  (moduleNamespace.filter fun e => e.2 && !(startsWithChar e.1 '_')).map Prod.fst

/-- Values `_print_out` can be handed: scalars (strings, integers,
`datetime` objects), lists and dicts.  Result dict keys in this module are
strings. -/
inductive Out where
  | str (s : String)
  | int (n : Int)
  | time (epoch : Nat)
  | list (xs : List Out)
  | dict (kvs : List (String × Out))

/-- Gregorian date (year, month, day) of `1970-01-01 + days`, the standard
era-decomposition civil-calendar algorithm, valid for every nonnegative
day count. -/
def civilFromDays (days : Nat) : Nat × Nat × Nat :=
  let z := days + 719468
  let era := z / 146097
  let doe := z % 146097
  let yoe := (doe - doe / 1460 + doe / 36524 - doe / 146096) / 365
  let y := yoe + era * 400
  let doy := doe - (365 * yoe + yoe / 4 - yoe / 100)
  let mp := (5 * doy + 2) / 153
  let d := doy - (153 * mp + 2) / 5 + 1
  let m := if mp < 10 then mp + 3 else mp - 9
  (if m ≤ 2 then y + 1 else y, m, d)

/-- Zero-padded two-digit rendering of a time field. -/
def pad2 (n : Nat) : String := if n < 10 then "0" ++ toString n else toString n

/-- Space-padded day-of-month as `ctime` renders it (width 2). -/
def dayPad (n : Nat) : String := if n < 10 then " " ++ toString n else toString n

/-- Modelled from the standard library used by `_print_out.to_str`:
`datetime.fromtimestamp(epoch).ctime()`, with the
timezone convention fixed to UTC, giving the classic
`"Www Mmm dd hh:mm:ss yyyy"` calendar string. -/
def pyCtime (epoch : Nat) : String :=
  let days := epoch / 86400
  let secs := epoch % 86400
  let ymd := civilFromDays days
  let wd := (days + 4) % 7
  let wdName := ["Sun", "Mon", "Tue", "Wed", "Thu", "Fri", "Sat"].getD wd ""
  let mName :=
    ["Jan", "Feb", "Mar", "Apr", "May", "Jun",
     "Jul", "Aug", "Sep", "Oct", "Nov", "Dec"].getD (ymd.2.1 - 1) ""
  wdName ++ " " ++ mName ++ " " ++ dayPad ymd.2.2 ++ " " ++
    pad2 (secs / 3600) ++ ":" ++ pad2 (secs % 3600 / 60) ++ ":" ++
    pad2 (secs % 60) ++ " " ++ toString ymd.1

/-- `_print_out.to_str` (lines 74-77): a `datetime` renders via `ctime()`,
everything else via `str()`. -/
def toStr : Out → String
  | .str s => s
  | .int n => toString n
  | .time e => pyCtime e
  | .list _ => ""
  | .dict _ => ""

/-- The indentation of `_print_out`: `level` copies of the tab character. -/
def tabs (level : Nat) : String := String.mk (List.replicate level '\t')

/-- `type(value) in (list, dict)` — the nesting test of `_print_out`. -/
def isNested : Out → Bool
  | .list _ => true
  | .dict _ => true
  | _ => false

mutual

/-- `_print_out` (lines 73-98), with the printed lines collected into a
list: list elements print at the current level (nested ones recurse one
level deeper with no label), dict entries print `key: value` for scalar
values and the bare key above a one-level-deeper rendering otherwise,
scalars print as a single indented line. -/
def printOut : Out → Nat → List String
  | .list xs, level => printItems xs level
  | .dict kvs, level => printPairs kvs level
  | v, level => [tabs level ++ toStr v]

/-- The `list` branch of `_print_out`. -/
def printItems : List Out → Nat → List String
  | [], _ => []
  | v :: vs, level =>
    (if isNested v then printOut v (level + 1) else [tabs level ++ toStr v]) ++
      printItems vs level

/-- The `dict` branch of `_print_out`. -/
def printPairs : List (String × Out) → Nat → List String
  | [], _ => []
  | (k, v) :: kvs, level =>
    (if isNested v then (tabs level ++ k) :: printOut v (level + 1)
     else [tabs level ++ k ++ ": " ++ toStr v]) ++
      printPairs kvs level

end

/-- Python `\s` on ASCII text: space, tab, newline, carriage return,
vertical tab, form feed. -/
def isPySpace (c : Char) : Bool :=
  c == ' ' || c == '\t' || c == '\n' || c == '\r' || c == '\x0b' || c == '\x0c'

/-- Characters of the current line: everything up to the first newline
(Python `.` does not match a newline). -/
def lineSpan (s : List Char) : List Char := s.takeWhile fun c => c != '\n'

/-- Backtracking of the greedy `\(.*\)\:\s` tail of the help pattern: the
largest `j` within the current line such that position `j` holds `)`,
`j+1` holds `:` and `j+2` holds a whitespace character. -/
def lastCloseColon (s : List Char) : Option Nat :=
  ((List.range (lineSpan s).length).filter fun j =>
    (s.drop j).take 2 == [')', ':'] &&
      (match (s.drop (j + 2)).head? with
       | some c => isPySpace c
       | Option.none => false)).getLast?

/-- Attempted match of `arg\s\(.*\)\:\s(.*)` at the start of `s`,
returning the captured group (the rest of the line after the matched
`): `). -/
def matchHelpAt (arg : List Char) (s : List Char) : Option (List Char) :=
  if s.take arg.length == arg then
    match s.drop arg.length with
    | w :: '(' :: s3 =>
      if isPySpace w then
        match lastCloseColon s3 with
        | some j => some (lineSpan (s3.drop (j + 3)))
        | Option.none => Option.none
      else Option.none
    | _ => Option.none
  else Option.none

/-- `re.findall(r"%s\s\(.*\)\:\s(.*)" % arg, doc)[0]` (line 49): the
captured group of the leftmost match, `none` when the docstring has no line of
the `<name> (<type>): <description>` shape for this parameter. -/
def findParamDoc (arg : String) (doc : String) : Option (List Char) :=
  let dc := doc.data
  (List.range (dc.length + 1)).findSome? fun p => matchHelpAt arg.data (dc.drop p)

/-- Whether `\sdefaults\sto\s` matches at the start of `s`. -/
def matchDefaultsAt (s : List Char) : Bool :=
  match s with
  | w :: rest =>
    isPySpace w &&
      rest.take 8 == "defaults".data &&
      (match rest.drop 8 with
       | w2 :: rest2 =>
         isPySpace w2 &&
           rest2.take 2 == "to".data &&
           (match rest2.drop 2 with
            | w3 :: _ => isPySpace w3
            | [] => false)
       | [] => false)
  | [] => false

/-- `re.sub(r"\sdefaults\sto\s.*", "", s)` on a single-line string: drop
everything from the first position where the pattern matches (the greedy
`.*` then reaches the end of the line). -/
def subDefaults (s : List Char) : List Char :=
  match (List.range s.length).find? (fun p => matchDefaultsAt (s.drop p)) with
  | some p => s.take p
  | Option.none => s

/-- Python `str.strip(".")`: remove leading and trailing period
characters. -/
def pyStripDot (s : List Char) : List Char :=
  ((s.dropWhile fun c => c == '.').reverse.dropWhile fun c => c == '.').reverse

/-- The help extraction of lines 47-51: find the doc line of the parameter,
lowercase the captured description, remove the first
whitespace-`defaults`-whitespace-`to`-whitespace match and everything
after it, and strip periods from both ends; no matching line leaves the
help absent. -/
def extractHelp (arg : String) (doc : String) : Option String :=
  (findParamDoc arg doc).map fun cap =>
    String.mk (pyStripDot (subDefaults (cap.map Char.toLower)))

/-- The docstring of `rmdir` (lines 266-271). -/
def rmdirDoc : String :=
  "Delete the directory specified by RemotePath. If the optional -r is specified, recursively delete the entire directory.\n" ++
  "    \n" ++
  "    Args:\n" ++
  "        remotepath (string): Path to directory on the submit machine.\n" ++
  "        r (bool, optional): Recursively delete remotepath. Defaults to False.\n" ++
  "    "

/-- A docstring whose parameter description mentions `defaults to` in its
middle as well as carrying a genuine trailing defaults clause. -/
def midDefaultsDoc : String :=
  "x (string): uses defaults to compute the rate. defaults to 5."

/-- Exceptions the `getdir` post-processing loop can raise. -/
inductive PyErr where
  | typeError
  | keyError
  | indexError
deriving DecidableEq

/-- Python values the `getdir` of the remote client can hand back: strings,
integers, converted timestamps, lists and string-keyed dicts. -/
inductive PyVal where
  | pstr (s : String)
  | pint (n : Nat)
  | ptime (n : Nat)
  | plist (xs : List PyVal)
  | pdict (kvs : List (String × PyVal))

/-- `v[idx]`: dict lookup for string subscripts (`KeyError` when missing),
list indexing for integer subscripts (`TypeError` for any other subscript
type, `IndexError` out of range), `TypeError` on non-subscriptable
scalars. -/
def pySubscript (v : PyVal) (idx : PyVal) : Except PyErr PyVal :=
  match v with
  | .plist xs =>
    match idx with
    | .pint i =>
      match xs.get? i with
      | some x => .ok x
      | Option.none => .error .indexError
    | _ => .error .typeError
  | .pdict kvs =>
    match idx with
    | .pstr s =>
      match kvs.lookup s with
      | some x => .ok x
      | Option.none => .error .keyError
    | _ => .error .keyError
  | _ => .error .typeError

/-- `v[key] = x` for the string-keyed dicts reached by the loop (list
assignment through a string subscript would already have failed at the
read). -/
def pySetItem (v : PyVal) (key : String) (x : PyVal) : Except PyErr PyVal :=
  match v with
  | .pdict kvs => .ok (.pdict (kvs.map fun kv => if kv.1 == key then (key, x) else kv))
  | _ => .error .typeError

/-- `datetime.fromtimestamp` applied to one metadata field: numbers
convert, anything else raises `TypeError`. -/
def pyFromtimestamp : PyVal → Except PyErr PyVal
  | .pint n => .ok (.ptime n)
  | _ => .error .typeError

/-- One iteration of the inner loop body
`out[item][key] = datetime.fromtimestamp(out[item][key])` applied to the
entry `out[item]`. -/
def convertKey (entry : PyVal) (key : String) : Except PyErr PyVal := do
  let x ← pySubscript entry (.pstr key)
  let t ← pyFromtimestamp x
  pySetItem entry key t

/-- The inner loop over `["atime", "mtime", "ctime"]`. -/
def convertEntry (entry : PyVal) : Except PyErr PyVal := do
  let e1 ← convertKey entry "atime"
  let e2 ← convertKey e1 "mtime"
  convertKey e2 "ctime"

/-- The outer loop of lines 292-294, one `item` at a time. -/
def getdirLoop : List PyVal → PyVal → Except PyErr PyVal
  | [], out => .ok out
  | item :: rest, out => do
    let entry ← pySubscript out item
    let entry' ← convertEntry entry
    let out' ←
      match item with
      | .pstr s => pySetItem out s entry'
      | _ => .error .typeError
    getdirLoop rest out'

/-- The post-processing `getdir` applies to whatever the remote client
returned: iterate the result (list elements, or dict keys) and convert the
three timestamp fields of each entry. -/
def getdirConv (out : PyVal) : Except PyErr PyVal :=
  match out with
  | .plist xs => getdirLoop xs out
  | .pdict kvs => getdirLoop (kvs.map fun kv => .pstr kv.1) out
  | _ => .error .typeError

/-- A metadata result of the documented `l=True` shape. -/
def sampleMetaDict : PyVal :=
  .pdict [("file1", .pdict [("atime", .pint 100), ("mtime", .pint 200),
    ("ctime", .pint 300), ("size", .pint 5)])]

/-- `sampleMetaDict` with the three timestamp fields converted. -/
def sampleMetaDictConverted : PyVal :=
  .pdict [("file1", .pdict [("atime", .ptime 100), ("mtime", .ptime 200),
    ("ctime", .ptime 300), ("size", .pint 5)])]

/-- A metadata result missing the `mtime` key. -/
def sampleMissingKeyDict : PyVal :=
  .pdict [("file1", .pdict [("atime", .pint 100), ("size", .pint 5)])]

/-- One theorem-relevant fact of the C3 filter: dropped entries are exactly the
falsy ones whose key has a default. -/
theorem filterParsed_mem (defaults parsed : List (String × Value)) (k : String) (v : Value) :
    (k, v) ∈ filterParsed defaults parsed ↔
      (k, v) ∈ parsed ∧ (truthy v = true ∨ defaults.lookup k = Option.none) := by
  simp [filterParsed, List.mem_filter, Option.isNone_iff_eq_none]

/-- Lookup misses every key absent from the key list. -/
theorem lookup_eq_none_of_not_mem_keys (l : List (String × Value)) (k : String)
    (h : k ∉ l.map Prod.fst) : l.lookup k = Option.none := by
  induction l with
  | nil => rfl
  | cons p rest ih =>
    simp only [List.map_cons, List.mem_cons, not_or] at h
    rw [List.lookup_cons]
    have hne : (k == p.1) = false := by
      simp [beq_eq_false_iff_ne]
      exact h.1
    rw [hne]
    exact ih h.2

/-- Looking a key up after the falsy filter: under distinct keys, the
binding survives exactly when it is truthy or carries no default. -/
theorem lookup_filterParsed (defaults parsed : List (String × Value)) (arg : String)
    (v : Value) (hnd : (parsed.map Prod.fst).Nodup) (hp : parsed.lookup arg = some v) :
    (filterParsed defaults parsed).lookup arg =
      (if truthy v || (defaults.lookup arg).isNone then some v else Option.none) := by
  induction parsed with
  | nil => simp at hp
  | cons p rest ih =>
    obtain ⟨k, w⟩ := p
    rw [List.map_cons, List.nodup_cons] at hnd
    rw [List.lookup_cons] at hp
    by_cases hk : (arg == k) = true
    · have hkarg : arg = k := by simpa using hk
      subst hkarg
      rw [hk] at hp
      injection hp with hv
      subst hv
      rw [filterParsed, List.filter_cons]
      by_cases hkeep : (truthy w || (defaults.lookup arg).isNone) = true
      · rw [if_pos hkeep, if_pos hkeep, List.lookup_cons, hk]
      · rw [if_neg hkeep, if_neg hkeep]
        have hout : arg ∉ (List.filter
            (fun item => truthy item.2 || (defaults.lookup item.1).isNone) rest).map Prod.fst := by
          intro hmem
          rcases List.mem_map.mp hmem with ⟨q, hq, hfst⟩
          have hqrest : q ∈ rest := List.mem_of_mem_filter hq
          have hkeys : q.1 ∈ rest.map Prod.fst := List.mem_map_of_mem Prod.fst hqrest
          rw [hfst] at hkeys
          exact hnd.1 hkeys
        exact lookup_eq_none_of_not_mem_keys _ arg hout
    · rw [Bool.not_eq_true] at hk
      rw [hk] at hp
      simp only [] at hp
      have ihres := ih hnd.2 hp
      rw [filterParsed] at ihres
      rw [filterParsed, List.filter_cons]
      by_cases hkeep : (truthy w || (defaults.lookup k).isNone) = true
      · rw [if_pos hkeep, List.lookup_cons, hk]
        exact ihres
      · rw [if_neg hkeep]
        exact ihres

/-- C3: in interactive mode a parsed value that is falsy is dropped for
every parameter with a declared default, so the function receives the
default; a parsed value for a parameter without a default is passed
through whatever its truthiness. -/
theorem c3_falsy_default_restoration
    (defaults parsed : List (String × Value)) (arg : String) (v : Value)
    (hnd : (parsed.map Prod.fst).Nodup) (hp : parsed.lookup arg = some v) :
    (∀ d, defaults.lookup arg = some d → truthy v = false →
        resolveArg defaults parsed arg = some d) ∧
      (defaults.lookup arg = Option.none → resolveArg defaults parsed arg = some v) := by
  have hF := lookup_filterParsed defaults parsed arg v hnd hp
  constructor
  · intro d hd ht
    rw [resolveArg, hF, ht, hd]
    simp [Option.orElse]
  · intro hd
    rw [resolveArg, hF, hd]
    simp [Option.orElse]

/-- Witness for C3: `put` parsed with an explicitly empty `-mode` receives
the declared default `"wct"`. -/
theorem c3_falsy_default_restoration_witness :
    resolveArg [("mode", Value.str "wct")]
      [("remote_file", Value.str "f"), ("mode", Value.str "")] "mode" =
      some (Value.str "wct") :=
  (c3_falsy_default_restoration [("mode", Value.str "wct")]
    [("remote_file", Value.str "f"), ("mode", Value.str "")] "mode" (Value.str "")
    (by decide) rfl).1 (Value.str "wct") rfl rfl


/-- C4: in `put`, a requested mode containing any of the characters `a`,
`c`, `t` reaches the remote client with `w` appended exactly once, and a
mode containing none of them is passed unchanged. -/
theorem c4_put_mode_augmentation (mode : String) :
    ((strContains mode 'a' ∨ strContains mode 'c' ∨ strContains mode 't') →
        putMode mode = mode ++ "w") ∧
      (¬(strContains mode 'a' ∨ strContains mode 'c' ∨ strContains mode 't') →
        putMode mode = mode) := by
  constructor
  · intro h
    have hne : ¬(mode = "") := by
      intro he
      subst he
      exact absurd h (by decide)
    rw [putMode, if_neg hne]
    by_cases ha : strContains mode 'a' = true
    · rw [if_pos ha]
    · rw [if_neg ha]
      by_cases hc : strContains mode 'c' = true
      · rw [if_pos hc]
      · rw [if_neg hc]
        by_cases ht : strContains mode 't' = true
        · rw [if_pos ht]
        · rw [if_neg ht]
          rcases h with h | h | h
          · exact absurd h ha
          · exact absurd h hc
          · exact absurd h ht
  · intro h
    push_neg at h
    obtain ⟨ha, hc, ht⟩ := h
    rw [putMode]
    by_cases he : mode = ""
    · rw [if_pos he]
    · rw [if_neg he, if_neg ha, if_neg hc, if_neg ht]

/-- Witness for C4: mode `"c"` is passed to the client as `"cw"`. -/
theorem c4_put_mode_augmentation_witness : putMode "c" = "c" ++ "w" :=
  (c4_put_mode_augmentation "c").1 (Or.inr (Or.inl (by decide)))

/-- C1 (divergence witness): the dispatch test of lines 365-367 lets the
token `datetime` through — an imported callable, not one of the commands
defined in the module — so the dispatcher evaluates and invokes a callable
that is not a registered command instead of reporting it. -/
theorem c1_dispatch_invokes_unregistered_callable :
    dispatch "datetime" = DispatchAction.invoke "datetime" ∧
      "datetime" ∉ registeredCommands := by
  exact ⟨rfl, by decide⟩

/-- Counterexample to C5: the token `getargspec` does not name a
registered command, yet the dispatcher invokes it rather than printing
`error: command not implemented`. -/
theorem c5_unknown_command_counterexample :
    dispatch "getargspec" = DispatchAction.invoke "getargspec" ∧
      "getargspec" ∉ registeredCommands := by
  exact ⟨rfl, by decide⟩

/-- C5 as amended: for every first token that fails the dispatch test —
not bound in the module namespace, starting with an underscore, or bound
to a non-callable — the process prints exactly `error: command not
implemented` to standard output and exits with status 0. -/
theorem c5_unknown_command_message (cmd : String) (h : cmd ∉ invokableNames) :
    dispatch cmd = DispatchAction.printExit "error: command not implemented" 0 := by
  have hf : dirTest cmd = false := by
    rw [dirTest]
    by_contra hne
    rw [Bool.not_eq_false, Bool.and_eq_true, List.any_eq_true] at hne
    obtain ⟨⟨e, hmem, he⟩, hpriv⟩ := hne
    rw [Bool.and_eq_true, beq_iff_eq] at he
    apply h
    apply List.mem_map.mpr
    refine ⟨e, List.mem_filter.mpr ⟨hmem, ?_⟩, he.1⟩
    rw [Bool.and_eq_true, he.2, he.1, hpriv]
    exact ⟨rfl, rfl⟩
  rw [dispatch, if_neg]
  rw [hf]
  exact Bool.false_ne_true

/-- Witness for C5 as amended: the unknown token `foo`. -/
theorem c5_unknown_command_message_witness :
    dispatch "foo" = DispatchAction.printExit "error: command not implemented" 0 :=
  c5_unknown_command_message "foo" (by decide)

/-- Counterexample to C2: `stride` has the tuple default
`(None, None)` of length 2 in both `read` and `write`, but with the
decorator default `custom={}` — the shape-derived rule alone, no
per-parameter declaration — the built option consumes a single token:
each command then accepts one token after `-stride` and rejects two, so
the arity is not derived from the shape of the default value alone. -/
theorem c2_shape_alone_counterexample :
    readSigNoCustom.defaults.lookup "stride" = some (Value.tuple [Value.none, Value.none]) ∧
      (buildArg readSigNoCustom.custom readSigNoCustom.defaults "stride").nargs =
        NargsSpec.one ∧
      optionArity (buildArg readSigNoCustom.custom readSigNoCustom.defaults "stride") = 1 ∧
      interactiveRun readSigNoCustom ["f", "10", "-stride", "4", "2"] = Option.none ∧
      received readSigNoCustom ["f", "10", "-stride", "4"] "stride" =
        some (some (Value.str "4")) ∧
      writeSigNoCustom.defaults.lookup "stride" =
        some (Value.tuple [Value.none, Value.none]) ∧
      (buildArg writeSigNoCustom.custom writeSigNoCustom.defaults "stride").nargs =
        NargsSpec.one ∧
      optionArity (buildArg writeSigNoCustom.custom writeSigNoCustom.defaults "stride") = 1 ∧
      interactiveRun writeSigNoCustom ["rf", "lf", "5", "-stride", "4", "2"] = Option.none ∧
      received writeSigNoCustom ["rf", "lf", "5", "-stride", "4"] "stride" =
        some (some (Value.str "4")) := by
  exact ⟨rfl, rfl, rfl, rfl, rfl, rfl, rfl, rfl, rfl, rfl⟩

/-- C2 as amended: the tuple-defaulted parameters of the registered
commands are exactly `read.stride` and `write.stride`, both tuples of
length 2, and for each of them the interactive parser accepts exactly 2
tokens for `-stride` (rejecting 1 and 3) because the decorator call
carries the explicit per-parameter customization `nargs = 2`; the
customization, not the shape of the default, fixes the arity. -/
theorem c2_stride_arity :
    tupleDefaultParams = [("read", "stride", 2), ("write", "stride", 2)] ∧
      readSig.defaults.lookup "stride" = some (Value.tuple [Value.none, Value.none]) ∧
      (buildArg readSig.custom readSig.defaults "stride").nargs = NargsSpec.count 2 ∧
      received readSig ["f", "10", "-stride", "4", "2"] "stride" =
        some (some (Value.list [Value.str "4", Value.str "2"])) ∧
      interactiveRun readSig ["f", "10", "-stride", "4"] = Option.none ∧
      interactiveRun readSig ["f", "10", "-stride", "4", "2", "1"] = Option.none ∧
      writeSig.defaults.lookup "stride" = some (Value.tuple [Value.none, Value.none]) ∧
      (buildArg writeSig.custom writeSig.defaults "stride").nargs = NargsSpec.count 2 ∧
      received writeSig ["rf", "lf", "5", "-stride", "4", "2"] "stride" =
        some (some (Value.list [Value.str "4", Value.str "2"])) ∧
      interactiveRun writeSig ["rf", "lf", "5", "-stride", "4"] = Option.none ∧
      interactiveRun writeSig ["rf", "lf", "5", "-stride", "4", "2", "1"] = Option.none := by
  exact ⟨rfl, rfl, rfl, rfl, rfl, rfl, rfl, rfl, rfl, rfl, rfl⟩

/-- C6: the boolean-defaulted parameters of the registered commands are
exactly `rmdir.r` and `getdir.l` (both defaulting to `False`), and for
each of them interactive parsing is an exact toggle: the flag absent gives
the declared default, the flag present gives its negation; in particular
`rmdir /tmp/x -r` reaches the function with `remotepath="/tmp/x"` and
`r=True`. -/
theorem c6_bool_flag_toggle :
    boolDefaultParams = [("rmdir", "r", false), ("getdir", "l", false)] ∧
      received rmdirSig ["/tmp/x"] "r" = some (some (Value.bool false)) ∧
      received rmdirSig ["/tmp/x", "-r"] "r" = some (some (Value.bool true)) ∧
      received rmdirSig ["/tmp/x", "-r"] "remotepath" = some (some (Value.str "/tmp/x")) ∧
      received getdirSig ["/tmp"] "l" = some (some (Value.bool false)) ∧
      received getdirSig ["/tmp", "-l"] "l" = some (some (Value.bool true)) := by
  exact ⟨rfl, rfl, rfl, rfl, rfl, rfl⟩

set_option maxRecDepth 1000000

/-- The extraction result for `remotepath` in the `rmdir` docstring. -/
theorem extractHelp_remotepath_eq :
    extractHelp "remotepath" rmdirDoc = some "path to directory on the submit machine" := by
  rfl

/-- The extraction result for `r` in the `rmdir` docstring. -/
theorem extractHelp_r_eq :
    extractHelp "r" rmdirDoc = some "recursively delete remotepath" := by
  rfl

/-- Extraction for a name with no matching doc line yields no help. -/
theorem extractHelp_zzz_eq : extractHelp "zzz" rmdirDoc = Option.none := by
  rfl

/-- Extraction truncates at the first mid-description `defaults to`. -/
theorem extractHelp_mid_eq : extractHelp "x" midDefaultsDoc = some "uses" := by
  rfl

/-- Counterexample to C7: in a description that mentions `defaults to` in
its middle, the extraction truncates at that first occurrence — the help
becomes `uses`, not the claim-mandated `uses defaults to compute the
rate`, so a non-trailing occurrence does corrupt the extracted help. -/
theorem c7_mid_defaults_counterexample :
    extractHelp "x" midDefaultsDoc = some "uses" ∧
      some "uses" ≠ some "uses defaults to compute the rate" :=
  ⟨extractHelp_mid_eq, by decide⟩

/-- C7 as amended: extraction finds the `<name> (<type>): <description>`
line, lowercases the description, removes everything from the first
whitespace-`defaults to`-whitespace match to the end, and strips periods
from both ends; when the only occurrence is the trailing clause this is
exactly the claimed stripping, a mid-description occurrence truncates the
help there, and a parameter with no matching line gets no help rather
than an error. -/
theorem c7_help_extraction :
    extractHelp "remotepath" rmdirDoc = some "path to directory on the submit machine" ∧
      extractHelp "r" rmdirDoc = some "recursively delete remotepath" ∧
      extractHelp "zzz" rmdirDoc = Option.none ∧
      extractHelp "x" midDefaultsDoc = some "uses" :=
  ⟨extractHelp_remotepath_eq, extractHelp_r_eq, extractHelp_zzz_eq, extractHelp_mid_eq⟩

/-- C8: rendering `{"a": {"b": 1, "c": [2, 3]}}` yields exactly the five
lines `a` (0 tabs), `b: 1` and `c` (1 tab), `2` and `3` (2 tabs); in
general a mapping key with a nested value prints alone with the value one
level deeper, and a scalar-valued key prints as `key: value`. -/
theorem c8_render_nested_mapping :
    printOut (Out.dict [("a", Out.dict [("b", Out.int 1), ("c", Out.list [Out.int 2, Out.int 3])])]) 0 =
        ["a", "\tb: 1", "\tc", "\t\t2", "\t\t3"] ∧
      (∀ level k n, printOut (Out.dict [(k, Out.int n)]) level =
        [tabs level ++ k ++ ": " ++ toString n]) ∧
      (∀ level k kvs, printOut (Out.dict [(k, Out.dict kvs)]) level =
        (tabs level ++ k) :: printOut (Out.dict kvs) (level + 1)) ∧
      (∀ level k xs, printOut (Out.dict [(k, Out.list xs)]) level =
        (tabs level ++ k) :: printOut (Out.list xs) (level + 1)) := by
  refine ⟨rfl, ?_, ?_, ?_⟩
  · intro level k n
    simp [printOut, printPairs, isNested, toStr]
  · intro level k kvs
    simp [printOut, printPairs, isNested]
  · intro level k xs
    simp [printOut, printPairs, isNested]

/-- C9: the renderer shows a timestamp — standing alone, inside a list, or
as a mapping value — through the fixed calendar conversion (weekday,
month, day, time, year), a deterministic function of the epoch under the
UTC convention of the model; epoch 0 renders as the fixed string
`Thu Jan  1 00:00:00 1970`, not as the raw number. -/
theorem c9_timestamp_render :
    (∀ level e, printOut (Out.time e) level = [tabs level ++ pyCtime e]) ∧
      (∀ level e, printOut (Out.list [Out.time e]) level = [tabs level ++ pyCtime e]) ∧
      (∀ level k e, printOut (Out.dict [(k, Out.time e)]) level =
        [tabs level ++ k ++ ": " ++ pyCtime e]) ∧
      pyCtime 0 = "Thu Jan  1 00:00:00 1970" ∧
      pyCtime 0 ≠ "0" := by
  refine ⟨?_, ?_, ?_, rfl, by decide⟩
  · intro level e
    simp [printOut, toStr]
  · intro level e
    simp [printOut, printItems, isNested, toStr]
  · intro level k e
    simp [printOut, printPairs, isNested, toStr]

/-- Counterexample to C10: an empty file list — an ordered sequence of
filenames, the documented client result for `l=False` — makes the
timestamp loop run zero times, so `getdir` returns it normally rather
than failing with a type error, and returns normally on a value that is
not a metadata mapping. -/
theorem c10_empty_listing_counterexample :
    getdirConv (PyVal.plist []) = Except.ok (PyVal.plist []) := by
  exact rfl

/-- C10 as amended: whenever the client returns a nonempty sequence of
filenames the loop indexes the sequence with its first string element and
`getdir` raises a type error instead of returning the list; an empty
sequence is returned unchanged, a metadata mapping with numeric `atime`,
`mtime`, `ctime` fields is returned with exactly those fields converted
to timestamps, and a mapping whose entry lacks one of the keys raises a
key error. -/
theorem c10_getdir_listing_type_error :
    (∀ s xs, getdirConv (PyVal.plist (PyVal.pstr s :: xs)) = Except.error PyErr.typeError) ∧
      getdirConv (PyVal.plist []) = Except.ok (PyVal.plist []) ∧
      getdirConv sampleMetaDict = Except.ok sampleMetaDictConverted ∧
      getdirConv sampleMissingKeyDict = Except.error PyErr.keyError := by
  refine ⟨?_, rfl, rfl, rfl⟩
  intro s xs
  rfl

end Pychirp
